import Mathlib

/-!
Shallow embedding of `src/udlerrors/main.cpp` (namespace `error`, inline
namespace `v0_1_0`): three status-code domains (`win`, `nt`, `hr`), the
obligation-tracking wrapper `unique_error`, the exception carriers, and the
two `last_error`-style handler functors.

Modelling conventions:
- 32-bit machine integers (DWORD, NTSTATUS, HRESULT) are `Nat` holding the
  bit pattern; the explicit constructors reduce modulo `2 ^ 32`, which is
  where the machine width enters.  A signed comparison `x >= 0` on a 32-bit
  value becomes `value / 2 ^ 31 == 0`.
- `std::terminate()` in the destructor is modelled by a Boolean observer
  `destructTerminates` (true means the process terminates); in `reset`,
  which calls `safe_or_terminate()` before doing its work, termination is
  modelled by an `Option` result (`none` means the process terminates).
- The `mutable` flag and member functions become explicit state passing:
  an operation that mutates the object returns the updated object.
- `GetLastError()` is an external side channel; it is passed to the handler
  models as an explicit `lastError` argument.
- A thrown exception becomes an `Except.error` result.
-/

/-- Source `struct win`: boolean-code status domain wrapping a `DWORD`. -/
structure win where
  value : Nat
deriving Repr, DecidableEq

/-- Source `NOERROR`: the reserved success code of the `win` domain. -/
def NOERROR : Nat := 0

/-- Source `win()` : the default constructor, `value(NOERROR)`. -/
def win.ctor : win := ⟨NOERROR⟩

/-- Source `explicit win(DWORD e) : value(e)`; the `DWORD` store keeps 32 bits. -/
def win.ofCode (e : Nat) : win := ⟨e % 2 ^ 32⟩

/-- Source `explicit operator bool() const { return value == 0; }` -/
def win.toBool (w : win) : Bool := w.value == 0

/-- Source `struct nt`: flag-status domain wrapping an `NTSTATUS`. -/
structure nt where
  value : Nat
deriving Repr, DecidableEq

/-- Source `STATUS_SUCCESS`: the reserved success code of the `nt` domain. -/
def STATUS_SUCCESS : Nat := 0

/-- Source `nt()` : the default constructor, `value(STATUS_SUCCESS)`. -/
def nt.ctor : nt := ⟨STATUS_SUCCESS⟩

/-- Source `explicit nt(NTSTATUS v) : value(v)`; the 32-bit store. -/
def nt.ofCode (v : Nat) : nt := ⟨v % 2 ^ 32⟩

/-- Source `NT_SUCCESS(value)`: signed `value >= 0`, i.e. the top bit is clear. -/
def nt.success (s : nt) : Bool := s.value / 2 ^ 31 == 0

/-- Source `NT_INFORMATION(value)`: the top two bits are `01`. -/
def nt.information (s : nt) : Bool := s.value / 2 ^ 30 == 1

/-- Source `NT_WARNING(value)`: the top two bits are `10`. -/
def nt.warning (s : nt) : Bool := s.value / 2 ^ 30 == 2

/-- Source `NT_ERROR(value)`: the top two bits are `11`. -/
def nt.error (s : nt) : Bool := s.value / 2 ^ 30 == 3

/-- Source `explicit operator bool() const { return error(); }` — as written in the
source: the boolean conversion of `nt` is the *error* predicate. -/
def nt.toBool (s : nt) : Bool := s.error

/-- Source `struct hr`: tri-state domain wrapping an `HRESULT`. -/
structure hr where
  value : Nat
deriving Repr, DecidableEq

/-- Source `S_OK`: the reserved success code of the `hr` domain. -/
def S_OK : Nat := 0

/-- Source `hr()` : the default constructor, `value(S_OK)`. -/
def hr.ctor : hr := ⟨S_OK⟩

/-- Source `explicit hr(HRESULT v) : value(v)`; the 32-bit store. -/
def hr.ofCode (v : Nat) : hr := ⟨v % 2 ^ 32⟩

/-- Source `SUCCEEDED(value)`: signed `value >= 0`, i.e. the top bit is clear. -/
def hr.succeeded (s : hr) : Bool := s.value / 2 ^ 31 == 0

/-- Source `FAILED(value)`: signed `value < 0`, i.e. the top bit is set. -/
def hr.failed (s : hr) : Bool := s.value / 2 ^ 31 == 1

/-- Source `explicit operator bool() const { return succeeded(); }` -/
def hr.toBool (s : hr) : Bool := s.succeeded

/-- The capability the C++ templates require of a status type tagged with
`typedef void is_error`: an explicit boolean conversion (used by `!!t`) and
default construction `T\x7b\x7d` (used by `unique_error`). -/
class IsErrorDomain (T : Type) where
  toBool : T → Bool
  ctor : T

instance : IsErrorDomain win := ⟨win.toBool, win.ctor⟩

instance : IsErrorDomain nt := ⟨nt.toBool, nt.ctor⟩

instance : IsErrorDomain hr := ⟨hr.toBool, hr.ctor⟩

/-- Source `template<class T, class IsError> bool ok(const T& t) { return !!t; }` -/
def ok {T : Type} [IsErrorDomain T] (t : T) : Bool := IsErrorDomain.toBool t

/-- The underlying-code projection used by the free comparison templates
(`lhs.value == rhs.value`), available on every status domain. -/
class HasValue (T : Type) where
  value : T → Nat

instance : HasValue win := ⟨win.value⟩

instance : HasValue nt := ⟨nt.value⟩

instance : HasValue hr := ⟨hr.value⟩

/-- Source `template<class T, class IsError> bool operator==(const T&, const T&)`:
`lhs.value == rhs.value`. -/
def statusEq {T : Type} [HasValue T] (lhs rhs : T) : Bool :=
  HasValue.value lhs == HasValue.value rhs

/-- Source `template<class T, class IsError> bool operator!=(const T&, const T&)`:
`lhs.value != rhs.value`. -/
def statusNe {T : Type} [HasValue T] (lhs rhs : T) : Bool :=
  HasValue.value lhs != HasValue.value rhs

/-- Source `class unique_error`: the held status value and the `mutable bool issafe`
obligation flag. -/
structure unique_error (T : Type) where
  error : T
  issafe : Bool
deriving Repr, DecidableEq

/-- Source `unique_error() : issafe(true) \x7b\x7d` — `error` is default-constructed. -/
def unique_error.ctor (T : Type) [IsErrorDomain T] : unique_error T :=
  ⟨IsErrorDomain.ctor, true⟩

/-- Source `template<class V> unique_error(V v) : error(v), issafe(false) \x7b\x7d`,
with the conversion `V → T` already applied by the caller. -/
def unique_error.ofVal {T : Type} (v : T) : unique_error T := ⟨v, false⟩

/-- The destructor `~unique_error() { safe_or_terminate(); }`: the process
terminates exactly when `issafe` is false at end of life. -/
def unique_error.destructTerminates {T : Type} (u : unique_error T) : Bool :=
  !u.issafe

/-- Copy constructor `unique_error(const unique_error& o) : error(o.error),
issafe(o.issafe) { o.issafe = true; }` — returns (new object, updated
source). -/
def unique_error.copyCtor {T : Type} (o : unique_error T) :
    unique_error T × unique_error T :=
  (⟨o.error, o.issafe⟩, { o with issafe := true })

/-- Copy assignment between two *distinct* objects: `error = o.error;
issafe = o.issafe; o.issafe = true;` — returns (updated destination, updated
source). -/
def unique_error.assign {T : Type} (_dst src : unique_error T) :
    unique_error T × unique_error T :=
  (⟨src.error, src.issafe⟩, { src with issafe := true })

/-- Copy assignment of an object to itself (`u = u`): the statements
`error = o.error; issafe = o.issafe; o.issafe = true;` execute with source
and destination aliased, traced step by step. -/
def unique_error.selfAssign {T : Type} (u : unique_error T) : unique_error T :=
  let u1 := { u with error := u.error }
  let u2 := { u1 with issafe := u1.issafe }
  { u2 with issafe := true }

/-- Source `bool ok() const { issafe = true; return error::ok(error); }` — returns
(result, updated object). -/
def unique_error.okM {T : Type} [IsErrorDomain T] (u : unique_error T) :
    Bool × unique_error T :=
  (ok u.error, { u with issafe := true })

/-- Source `bool is_safe() const { return issafe; }` -/
def unique_error.is_safe {T : Type} (u : unique_error T) : Bool := u.issafe

/-- Source `unique_error& reset() { safe_or_terminate(); error = T{}; issafe = true;
return *this; }` — `none` models the `std::terminate()` taken when `issafe`
is false on entry. -/
def unique_error.reset {T : Type} [IsErrorDomain T] (u : unique_error T) :
    Option (unique_error T) :=
  if !u.issafe then none else some ⟨IsErrorDomain.ctor, true⟩

/-- Source `template<class V> unique_error& reset(V v) { safe_or_terminate();
error = T{v}; issafe = false; return *this; }`, with the conversion already
applied; `none` models the `std::terminate()` on an unsafe entry. -/
def unique_error.resetVal {T : Type} (u : unique_error T) (v : T) :
    Option (unique_error T) :=
  if !u.issafe then none else some ⟨v, false⟩

/-- Source `T release() { T result = error; error = T{}; issafe = true; return
result; }` — returns (result, updated object). -/
def unique_error.release {T : Type} [IsErrorDomain T] (u : unique_error T) :
    T × unique_error T :=
  (u.error, ⟨IsErrorDomain.ctor, true⟩)

/-- Source `template<class T, class IsError> bool ok(const unique_error<T>& t)
{ return t.ok(); }` — returns (result, updated wrapper). -/
def okWrapper {T : Type} [IsErrorDomain T] (u : unique_error T) :
    Bool × unique_error T :=
  u.okM

/-- Source `struct error_exception : std::exception { bool isok; ... }` with
`explicit error_exception(const T& e) : isok(error::ok(e)) \x7b\x7d`; here the
payload recorded at construction. -/
def error_exception_isok {T : Type} [IsErrorDomain T] (e : T) : Bool := ok e

/-- Source `struct win_exception : error_exception { win error; }` — carries the
`isok` flag of the base class and the `win` value. -/
structure win_exception where
  isok : Bool
  error : win
deriving Repr, DecidableEq

/-- Source `explicit win_exception(const win& e) : error_exception(e), error(e) \x7b\x7d` -/
def win_exception.ofWin (e : win) : win_exception := ⟨error_exception_isok e, e⟩

/-- Source `bool ok() const { return isok; }` of `error_exception`. -/
def win_exception.okE (x : win_exception) : Bool := x.isok

/-- Source `struct last_error_if_t` — the non-throwing handler; owns only the
configured `invalid` sentinel. -/
structure last_error_if_t (T : Type) where
  invalid : T

/-- Source `last_error_if(T invalid)`: the handler factory. -/
def last_error_if {T : Type} (invalid : T) : last_error_if_t T := ⟨invalid⟩

/-- Source `std::pair<win, T> operator()(T r) const { return std::make_pair(
win{ (r == invalid) ? GetLastError() : NOERROR }, r); }` — `lastError` is
the value the `GetLastError()` side channel would return. -/
def last_error_if_t.run {T : Type} [BEq T] (h : last_error_if_t T)
    (lastError : Nat) (r : T) : win × T :=
  (win.ofCode (if r == h.invalid then lastError else NOERROR), r)

/-- Source `struct throw_last_error_if_t` — the throwing handler; owns only the
configured `invalid` sentinel. -/
structure throw_last_error_if_t (T : Type) where
  invalid : T

/-- Source `throw_last_error_if(T invalid)`: the handler factory. -/
def throw_last_error_if {T : Type} (invalid : T) : throw_last_error_if_t T :=
  ⟨invalid⟩

/-- Source `T operator()(T r) const { if (r != invalid) return r;
throw win_exception{ win{ GetLastError() } }; }` — a throw becomes an
`Except.error`; `lastError` is the side-channel value. -/
def throw_last_error_if_t.run {T : Type} [BEq T] (h : throw_last_error_if_t T)
    (lastError : Nat) (r : T) : Except win_exception T :=
  if r != h.invalid then Except.ok r
  else Except.error (win_exception.ofWin (win.ofCode lastError))

/-- Source `operator||(const ReturnT& result, const T& handler)` simply applies the
handler to the raw result: `handler(result)`. -/
def pipeDispatch {R S : Type} (result : R) (handler : R → S) : S :=
  handler result

/-- Claim C1: a wrapper constructed from a raw status code terminates the
process when destroyed with no intervening discharge; constructing, calling
`ok()` once (whatever the held value is), then destroying does not
terminate. -/
theorem claim_C1 {T : Type} [IsErrorDomain T] (v : T) :
    (unique_error.ofVal v).destructTerminates = true ∧
    ((unique_error.ofVal v).okM).2.destructTerminates = false := by
  exact ⟨rfl, rfl⟩

/-- Claim C3: copying, by construction or by assignment, transfers the
obligation: the source ends safe (destroying it does not terminate) and the
destination inherits the source's prior safety state, so destroying the
destination terminates exactly when the source held an outstanding
obligation. -/
theorem claim_C3 {T : Type} (dst src : unique_error T) :
    ((unique_error.copyCtor src).2.issafe = true ∧
      (unique_error.copyCtor src).2.destructTerminates = false ∧
      (unique_error.copyCtor src).1.issafe = src.issafe ∧
      (unique_error.copyCtor src).1.destructTerminates = !src.issafe) ∧
    ((unique_error.assign dst src).2.issafe = true ∧
      (unique_error.assign dst src).2.destructTerminates = false ∧
      (unique_error.assign dst src).1.issafe = src.issafe ∧
      (unique_error.assign dst src).1.destructTerminates = !src.issafe) := by
  exact ⟨⟨rfl, rfl, rfl, rfl⟩, ⟨rfl, rfl, rfl, rfl⟩⟩

/-- Claim C7: default construction yields the domain's neutral value (its
reserved success code) with the safe flag set; construction from any raw
value opens an obligation (safe flag clear) regardless of the value. -/
theorem claim_C7 {T : Type} [IsErrorDomain T] (v : T) :
    (unique_error.ctor T).issafe = true ∧
    (unique_error.ctor T).error = IsErrorDomain.ctor ∧
    (unique_error.ofVal v).issafe = false ∧
    win.ctor = win.ofCode NOERROR ∧ nt.ctor = nt.ofCode STATUS_SUCCESS ∧
    hr.ctor = hr.ofCode S_OK := by
  exact ⟨rfl, rfl, rfl, rfl, rfl, rfl⟩

/-- Claim C8: in any safety state, `release()` returns the held value, leaves
the wrapper holding the neutral value with the safe flag set (so destruction
never terminates), and the returned value's success predicate equals that of
the value held before the call. -/
theorem claim_C8 {T : Type} [IsErrorDomain T] (u : unique_error T) :
    (u.release).1 = u.error ∧
    (u.release).2.issafe = true ∧
    (u.release).2.error = IsErrorDomain.ctor ∧
    (u.release).2.destructTerminates = false ∧
    ok (u.release).1 = ok u.error := by
  exact ⟨rfl, rfl, rfl, rfl, rfl⟩

/-- Claim C9: two status values of one domain are equal exactly when their
underlying codes are equal, and the inequality operator is the negation of
the equality operator, independent of any domain predicate. -/
theorem claim_C9 {T : Type} [HasValue T] (a b : T) :
    (statusEq a b = true ↔ HasValue.value a = HasValue.value b) ∧
    statusNe a b = !statusEq a b := by
  constructor
  · simp [statusEq]
  · rfl

/-- Claim C10: self-assignment of a wrapper with an outstanding obligation
silently discharges it: afterwards the safe flag is set, destruction does
not terminate, and the held value is unchanged. -/
theorem claim_C10 {T : Type} (u : unique_error T) (_h : u.issafe = false) :
    (u.selfAssign).issafe = true ∧
    (u.selfAssign).destructTerminates = false ∧
    (u.selfAssign).error = u.error := by
  exact ⟨rfl, rfl, rfl⟩

/-- Claim C10 witness: the concrete wrapper holding `win{5}` with an
outstanding obligation. -/
theorem claim_C10_witness :
    ((unique_error.ofVal (win.ofCode 5)).selfAssign).issafe = true ∧
    ((unique_error.ofVal (win.ofCode 5)).selfAssign).destructTerminates = false ∧
    ((unique_error.ofVal (win.ofCode 5)).selfAssign).error =
      (unique_error.ofVal (win.ofCode 5)).error :=
  claim_C10 (unique_error.ofVal (win.ofCode 5)) rfl

/-- Claim C2, bug evidence: as written, `nt`'s boolean conversion is the
*error* predicate itself, not its complement, so `ok` on the reserved
success code `STATUS_SUCCESS` is `false` (the spec and the other two
domains say it must be `true`), while `ok` on an error-severity code is
`true`. -/
theorem claim_C2_bug :
    ok (nt.ofCode STATUS_SUCCESS) = false ∧
    (nt.ofCode STATUS_SUCCESS).success = true ∧
    (nt.ofCode STATUS_SUCCESS).error = false ∧
    ok (nt.ofCode (3 * 2 ^ 30 + 5)) = true ∧
    (nt.ofCode (3 * 2 ^ 30 + 5)).error = true := by
  exact ⟨rfl, rfl, rfl, rfl, rfl⟩

/-- Claim C4 counterexample: a wrapper holding `win{5}` with its obligation
outstanding (safe flag clear); calling `reset()` on it terminates the
process (modelled by `none`), contradicting "clears the outstanding
obligation without terminating". -/
theorem claim_C4_counterexample :
    (unique_error.ofVal (win.ofCode 5)).is_safe = false ∧
    (unique_error.ofVal (win.ofCode 5)).reset = none ∧
    (unique_error.ofVal (win.ofCode 5)).resetVal (win.ofCode 7) = none := by
  exact ⟨rfl, rfl, rfl⟩

/-- Claim C4 amended: `reset` first requires the obligation to be already
discharged — on a wrapper with the safe flag set, `reset()` installs the
neutral value keeping the flag set, and `reset(v)` installs `v` and reopens
the obligation; on a wrapper with an outstanding obligation, either overload
terminates the process. -/
theorem claim_C4_amended {T : Type} [IsErrorDomain T] (u : unique_error T)
    (v : T) :
    u.reset = (if u.issafe then some ⟨IsErrorDomain.ctor, true⟩ else none) ∧
    u.resetVal v = (if u.issafe then some ⟨v, false⟩ else none) := by
  obtain ⟨e, s⟩ := u
  cases s <;> exact ⟨rfl, rfl⟩

/-- Claim C5 counterexample: with invalid sentinel `0`, raw result `0`
(matching the sentinel) and the side channel reporting diagnostic `0`
(NOERROR), the throwing handler throws an exception whose success predicate
is `true`, contradicting "throws a domain exception whose success predicate
is false". -/
theorem claim_C5_counterexample :
    (throw_last_error_if (0 : Nat)).run 0 0 =
      Except.error (win_exception.ofWin (win.ofCode 0)) ∧
    (win_exception.ofWin (win.ofCode 0)).okE = true := by
  exact ⟨rfl, rfl⟩

/-- Claim C5 amended: on a raw result different from the configured invalid
sentinel the throwing handler returns the raw result unchanged and throws
nothing; on a match it throws the domain exception wrapping the retrieved
diagnostic code, and that exception's success predicate is false exactly
when the retrieved diagnostic code is not NOERROR. -/
theorem claim_C5_amended {T : Type} [BEq T] (h : throw_last_error_if_t T)
    (d : Nat) (r : T) :
    ((r == h.invalid) = false → h.run d r = Except.ok r) ∧
    ((r == h.invalid) = true →
      h.run d r = Except.error (win_exception.ofWin (win.ofCode d)) ∧
      ((win_exception.ofWin (win.ofCode d)).okE = false ↔ ¬ d % 2 ^ 32 = 0)) := by
  constructor
  · intro h1
    simp [throw_last_error_if_t.run, bne, h1]
  · intro h1
    constructor
    · simp [throw_last_error_if_t.run, bne, h1]
    · simp [win_exception.okE, win_exception.ofWin, error_exception_isok, ok,
        IsErrorDomain.toBool, win.toBool, win.ofCode]

/-- Claim C5 witness: sentinel `0`; raw result `7` passes through unchanged,
raw result `0` throws the exception wrapping diagnostic `5`, whose success
predicate is false. -/
theorem claim_C5_witness :
    ((throw_last_error_if (0 : Nat)).run 5 7 = Except.ok 7) ∧
    ((throw_last_error_if (0 : Nat)).run 5 0 =
        Except.error (win_exception.ofWin (win.ofCode 5)) ∧
      ((win_exception.ofWin (win.ofCode 5)).okE = false ↔ ¬ 5 % 2 ^ 32 = 0)) :=
  ⟨(claim_C5_amended (throw_last_error_if 0) 5 7).1 (by decide),
   (claim_C5_amended (throw_last_error_if 0) 5 0).2 (by decide)⟩

/-- Claim C6 counterexample: with invalid sentinel `0`, raw result `0`
(matching the sentinel) and the side channel reporting diagnostic `0`
(NOERROR), the non-throwing handler's status half satisfies its success
predicate, contradicting "fails its success predicate". -/
theorem claim_C6_counterexample :
    (last_error_if (0 : Nat)).run 0 0 = (win.ofCode 0, 0) ∧
    ok (win.ofCode 0) = true := by
  exact ⟨rfl, rfl⟩

/-- Claim C6 amended: the non-throwing handler never throws and always
returns a pair whose value half is the raw result; the status half is the
neutral NOERROR value when the raw result differs from the sentinel, and
carries the retrieved diagnostic code on a match, in which case it fails
its success predicate exactly when that diagnostic code is not NOERROR. -/
theorem claim_C6_amended {T : Type} [BEq T] (h : last_error_if_t T)
    (d : Nat) (r : T) :
    (h.run d r).2 = r ∧
    ((r == h.invalid) = false →
      (h.run d r).1 = win.ofCode NOERROR ∧ ok (h.run d r).1 = true) ∧
    ((r == h.invalid) = true →
      (h.run d r).1 = win.ofCode d ∧
      (ok (h.run d r).1 = false ↔ ¬ d % 2 ^ 32 = 0)) := by
    refine ⟨rfl, ?_, ?_⟩
    · intro h1
      constructor
      · simp [last_error_if_t.run, h1]
      · simp [last_error_if_t.run, h1, ok, IsErrorDomain.toBool, win.toBool,
          win.ofCode, NOERROR]
    · intro h1
      constructor
      · simp [last_error_if_t.run, h1]
      · simp [last_error_if_t.run, h1, ok, IsErrorDomain.toBool, win.toBool,
          win.ofCode]

/-- Claim C6 witness: sentinel `0`; raw result `7` yields the neutral status
and the raw value, raw result `0` yields the status carrying diagnostic `5`,
which fails its success predicate. -/
theorem claim_C6_witness :
    ((last_error_if (0 : Nat)).run 5 7).2 = 7 ∧
    (((last_error_if (0 : Nat)).run 5 7).1 = win.ofCode NOERROR ∧
      ok ((last_error_if (0 : Nat)).run 5 7).1 = true) ∧
    (((last_error_if (0 : Nat)).run 5 0).1 = win.ofCode 5 ∧
      (ok ((last_error_if (0 : Nat)).run 5 0).1 = false ↔ ¬ 5 % 2 ^ 32 = 0)) :=
  ⟨(claim_C6_amended (last_error_if 0) 5 7).1,
   (claim_C6_amended (last_error_if 0) 5 7).2.1 (by decide),
   (claim_C6_amended (last_error_if 0) 5 0).2.2 (by decide)⟩
